import Mathlib

/-!
Shallow embedding of `scripts/bootstrap.py` from the seafile-docker repository.

The script is a sequential provisioning pipeline.  We embed it as pure
functions over an explicit `World` (filesystem existence predicate, config
map, certificate validity data, readiness probes) that return a trace of
observable side effects together with the updated world and an optional
process exit code.  Subprocesses invoked by the script are opaque: a call is
recorded as an effect and does not change the modelled filesystem.
Template render contexts are elided from the effect trace (the claims only
concern which files are rendered, not their contents).
-/

namespace Bootstrap

/-- Python formatting of an optional config value: `None` formats as "None". -/
def pyStr : Option String → String
| none => "None"
| some s => s

/-- Python truthiness of an optional string value: `None` and the empty string are falsy. -/
def pyTruthy : Option String → Bool
| none => false
| some s => s != ""

/-- Python str.strip(): drop leading and trailing whitespace. -/
def stripChars (l : List Char) : List Char :=
  ((l.dropWhile Char.isWhitespace).reverse.dropWhile Char.isWhitespace).reverse

def pyStrip (s : String) : String := ⟨stripChars s.data⟩

/-- Python str.split(sep) for the single-character separator used by the
script: split at every comma; n commas give n+1 fields. -/
def splitComma : List Char → List (List Char)
| [] => [[]]
| c :: rest =>
  match splitComma rest with
  | [] => [[]]
  | g :: gs => if c = ',' then [] :: g :: gs else (c :: g) :: gs

def pySplitComma (s : String) : List String := (splitComma s.data).map (fun l => ⟨l⟩)

/-- Python ' '.join(parts). -/
def joinSpace : List String → String
| [] => ""
| [s] => s
| s :: s2 :: rest => s ++ " " ++ joinSpace (s2 :: rest)

/-- Python str.lower(): lowercase every character (ASCII-faithful). -/
def pyLower (s : String) : String := ⟨s.data.map Char.toLower⟩

/-- Observable side effects of the bootstrap script, in program order. -/
inductive Effect where
| mkdir (p : String)
| render (tpl out : String)
| callCmd (cmd : String)
| sleep (secs : Nat)
| stdout (s : String)
| appendFile (p content : String)
| move (src dst : String)
| updateStamp (v : String)
| log (msg : String)
| waitNginx
| waitMysql
deriving DecidableEq, Repr

/-- Immutable context of a run: `conf` is the parsed bootstrap.conf (absent
key gives `none`), `certDaysLeft` gives the remaining validity in days of a
certificate file, `nginxProbe`/`mysqlProbe` give the outcome of the n-th TCP
connect attempt of the readiness waiters, with attempt budgets;
`seafileVersion` is `get_seafile_version()`, `envSeafileVersion` the
SEAFILE_VERSION environment variable, `uuidStr` the generated uuid4. -/
structure Env where
  conf : String → Option String
  certDaysLeft : String → Nat
  nginxProbe : Nat → Bool
  mysqlProbe : Nat → Bool
  nginxBudget : Nat
  mysqlBudget : Nat
  seafileVersion : String
  envSeafileVersion : String
  uuidStr : String

/-- World state the script interacts with: path existence plus the
immutable run context. -/
structure World where
  fs : String → Bool
  env : Env

/-- Result of running a pipeline stage: effect trace, updated world, and
`some code` when the stage terminated the process. -/
structure Out where
  effects : List Effect
  world : World
  exit : Option Nat

/-- os.path.join for the two-argument uses in the script. -/
def join (a b : String) : String := a ++ "/" ++ b

def shared_seafiledir : String := "/shared/seafile"

def ssl_dir : String := "/shared/ssl"

def generated_dir : String := "/bootstrap/generated"

/-- Modelled from the spec: the working tree top directory (`topdir =
dirname(installdir)`); `get_install_dir` lives in utils.py which is not under
src/.  The spec fixes artifacts at well-known paths under dedicated
directories; the seafile tree sits under /opt/seafile. -/
def topdir : String := "/opt/seafile"

/-- Modelled from the spec: the versioned install directory returned by
`get_install_dir()` (utils.py is not under src/). -/
def installdir (w : World) : String := "/opt/seafile/seafile-server-" ++ w.env.seafileVersion

/-- Modelled from the spec: `get_script(name)` resolves a script inside the
install directory (utils.py is not under src/). -/
def get_script (w : World) (s : String) : String := join (join (installdir w) "scripts") s

/-- Modelled from the spec: the version-stamp marker file path returned by
`get_version_stamp_file()` (utils.py is not under src/); a single-line marker
file at a fixed well-known path under the persistent mount. -/
def version_stamp_file : String := "/shared/seafile/seafile-data/current_version"

/-- get_conf from utils: look a key up in the parsed config. -/
def get_conf (w : World) (key : String) : Option String := w.env.conf key

/-- Modelled from the spec: `cert_has_valid_days(cert, days)` (utils.py is
not under src/).  True when the certificate at `cert` has more than `days`
days of validity remaining, computed from the embedded expiry field; the
spec's testable property fixes the boundary at strictly more than 30 days. -/
def cert_has_valid_days (w : World) (cert : String) (days : Nat) : Bool :=
  days < w.env.certDaysLeft cert

/-- Modelled from the spec: readiness waiter core (utils.py `wait_for_mysql`
and `wait_for_nginx` are not under src/).  Attempt a TCP connect in a loop
until success or the attempt budget is exhausted; returns whether some
attempt within the budget succeeded. -/
def wait_ready (probe : Nat → Bool) : Nat → Bool
| 0 => false
| n + 1 => probe n || wait_ready probe n

/-- Point update of the filesystem existence predicate. -/
def setPath (f : String → Bool) (p : String) (b : Bool) : String → Bool :=
  fun q => if q = p then b else f q

/-- How each effect changes the modelled filesystem.  `move` transfers the
source path to its destination; opaque subprocess calls do not change the
modelled filesystem. -/
def applyEffect (w : World) : Effect → World
| Effect.mkdir p => { w with fs := setPath w.fs p true }
| Effect.render _ out => { w with fs := setPath w.fs out true }
| Effect.appendFile p _ => { w with fs := setPath w.fs p true }
| Effect.move src dst => { w with fs := setPath (setPath w.fs src false) dst true }
| Effect.updateStamp _ => { w with fs := setPath w.fs version_stamp_file true }
| _ => w

def applyEffects (w : World) (es : List Effect) : World := es.foldl applyEffect w

/-- is_https (bootstrap.py lines 90-91). -/
def is_https (w : World) : Bool :=
  pyLower ((get_conf w "server.letsencrypt").getD "") == "true"

/-- do_parse_ports (bootstrap.py lines 108-117): print docker port-mapping
flags for server.port_mappings. -/
def do_parse_ports (w : World) : List Effect :=
  let conf := pyStrip ((get_conf w "server.port_mappings").getD "")
  if conf != "" then
    [Effect.stdout (joinSpace ((pySplitComma conf).map (fun part => "-p " ++ pyStrip part)))]
  else []

def letsencrypt_cron_out : String := join generated_dir "letsencrypt.cron"

/-- init_letsencrypt (bootstrap.py lines 30-71). -/
def init_letsencrypt (w : World) : Out :=
  let es0 := [Effect.log "Preparing for letsencrypt ...", Effect.waitNginx]
  if !(wait_ready w.env.nginxProbe w.env.nginxBudget) then ⟨es0, w, some 1⟩ else
  let es1 := if w.fs ssl_dir then [] else [Effect.mkdir ssl_dir]
  let w1 := applyEffects w es1
  let domain := pyStr (get_conf w1 "server.hostname")
  let es2 := [Effect.render "/templates/letsencrypt.cron.template" letsencrypt_cron_out]
  let w2 := applyEffects w1 es2
  let ssl_crt := "/shared/ssl/" ++ domain ++ ".crt"
  let es3 := if w2.fs ssl_crt then [Effect.log ("Found existing cert file " ++ ssl_crt)] else []
  if w2.fs ssl_crt && cert_has_valid_days w2 ssl_crt 30 then
    ⟨es0 ++ es1 ++ es2 ++ es3 ++ [Effect.log "Skip letsencrypt verification since we have a valid certificate"], w2, none⟩
  else
    let es4 := [Effect.log "Starting letsencrypt verification",
      Effect.render "/templates/seafile.nginx.conf.template" "/etc/nginx/sites-enabled/seafile.nginx.conf",
      Effect.callCmd "nginx -s reload",
      Effect.sleep 2,
      Effect.callCmd ("/scripts/ssl.sh " ++ ssl_dir ++ " " ++ domain)]
    ⟨es0 ++ es1 ++ es2 ++ es3 ++ es4, applyEffects w2 es4, none⟩

/-- generate_local_nginx_conf (bootstrap.py lines 74-87); the render context
is elided. -/
def generate_local_nginx_conf (_w : World) : List Effect :=
  [Effect.render "/templates/seafile.nginx.conf.template" (join generated_dir "seafile.nginx.conf")]

/-- generate_local_dockerfile (bootstrap.py lines 93-100); the render context
is elided. -/
def generate_local_dockerfile (_w : World) : List Effect :=
  [Effect.log "Generating local Dockerfile ...",
   Effect.render "/templates/Dockerfile.template" (join generated_dir "Dockerfile")]

/-- The sed call of bootstrap.py lines 139-140 that loosens the root-password
check in the vendored setup script. -/
def sed_cmd (w : World) : String :=
  "sed -i -e \x27s/if not mysql_root_passwd/if not mysql_root_passwd and \"MYSQL_ROOT_PASSWD\" not in os.environ/g\x27 " ++ get_script w "setup-seafile-mysql.py"

/-- The vendored setup-script invocation of bootstrap.py lines 142-143. -/
def setup_cmd (w : World) : String :=
  get_script w "setup-seafile-mysql.sh" ++ " auto -n seafile"

/-- service_port computation of bootstrap.py lines 147-149. -/
def service_port_str (w : World) : String :=
  let c := get_conf w "server.service_port"
  if pyTruthy c && (c != some "80") then pyStr c else ""

/-- The FILE_SERVER_ROOT text appended to seahub_settings.py
(bootstrap.py lines 150-154), including the surrounding newline writes. -/
def file_server_root_text (w : World) : String :=
  let domain := pyStr (get_conf w "server.hostname")
  let proto := if is_https w then "https" else "http"
  "\n" ++ "FILE_SERVER_ROOT = \"" ++ proto ++ "://" ++ domain ++ service_port_str w ++ "/seafhttp\"" ++ "\n"

/-- The socket-path override appended to ccnet.conf (bootstrap.py lines 162-166). -/
def ccnet_append_text : String :=
  "\n" ++ "[Client]\n" ++ "UNIX_SOCKET = /opt/seafile/ccnet.sock\n" ++ "\n"

def files_to_copy : List String := ["conf", "ccnet", "seafile-data", "seahub-data"]

/-- The relocation loop of bootstrap.py lines 168-173: for each name, move
topdir/name into the shared dir iff the destination does not exist and the
source does. -/
def moveLoop (fs : String → Bool) : List String → List Effect × (String → Bool)
| [] => ([], fs)
| fn :: rest =>
  let src := join topdir fn
  let dst := join shared_seafiledir fn
  if !(fs dst) && fs src then
    let fs1 := setPath (setPath fs src false) dst true
    let r := moveLoop fs1 rest
    (Effect.move src dst :: r.1, r.2)
  else moveLoop fs rest

/-- init_seafile_server (bootstrap.py lines 119-176). -/
def init_seafile_server (w : World) : Out :=
  if w.fs (join shared_seafiledir "seafile-data") then
    let es0 := if w.fs version_stamp_file then [] else [Effect.updateStamp w.env.envSeafileVersion]
    ⟨es0 ++ [Effect.log "Skip running setup-seafile-mysql.py because there is existing seafile-data folder."],
      applyEffects w es0, none⟩
  else
    let es1 := [Effect.log "Now running setup-seafile-mysql.py in auto mode.",
      Effect.callCmd (sed_cmd w),
      Effect.callCmd (setup_cmd w)]
    let w1 := applyEffects w es1
    let es2 := [Effect.appendFile (join (join topdir "conf") "seahub_settings.py") (file_server_root_text w1)]
    let es3 := [Effect.appendFile (join (join topdir "conf") "ccnet.conf") ccnet_append_text]
    let w2 := applyEffects w1 (es2 ++ es3)
    let mv := moveLoop w2.fs files_to_copy
    let w3 : World := { w2 with fs := mv.2 }
    let es5 := [Effect.log "Updating version stamp", Effect.updateStamp w.env.envSeafileVersion]
    ⟨es1 ++ es2 ++ es3 ++ mv.1 ++ es5, applyEffects w3 es5, none⟩

/-- main (bootstrap.py lines 178-197); `parsePorts` is the --parse-ports flag. -/
def main (w : World) (parsePorts : Bool) : Out :=
  if parsePorts then
    let es := do_parse_ports w
    ⟨es, applyEffects w es, none⟩
  else
  let es1 := if w.fs shared_seafiledir then [] else [Effect.mkdir shared_seafiledir]
  let w1 := applyEffects w es1
  let es2 := if w1.fs generated_dir then [] else [Effect.mkdir generated_dir]
  let w2 := applyEffects w1 es2
  let es3 := generate_local_dockerfile w2
  let w3 := applyEffects w2 es3
  let o4 := if is_https w3 then init_letsencrypt w3 else ⟨[], w3, none⟩
  match o4.exit with
  | some c => ⟨es1 ++ es2 ++ es3 ++ o4.effects, o4.world, some c⟩
  | none =>
    let w4 := o4.world
    let es5 := generate_local_nginx_conf w4
    let w5 := applyEffects w4 es5
    if !(wait_ready w5.env.mysqlProbe w5.env.mysqlBudget) then
      ⟨es1 ++ es2 ++ es3 ++ o4.effects ++ es5 ++ [Effect.waitMysql], w5, some 1⟩
    else
      let o6 := init_seafile_server (applyEffects w5 [Effect.waitMysql])
      ⟨es1 ++ es2 ++ es3 ++ o4.effects ++ es5 ++ [Effect.waitMysql] ++ o6.effects ++ [Effect.log "Generated local config."],
        o6.world, o6.exit⟩

/-- Total text written to standard output by a trace. -/
def stdoutOf : List Effect → String
| [] => ""
| Effect.stdout s :: rest => s ++ stdoutOf rest
| _ :: rest => stdoutOf rest

/-- An invocation of the ACME client /scripts/ssl.sh, recognised by the first
15 characters of the command line. -/
def sslShHead : List Char := "/scripts/ssl.sh".data

def isSslShCall : Effect → Bool
| Effect.callCmd c => c.data.take 15 == sslShHead
| _ => false

/-- A certificate-related effect: creating a path under /shared/ssl, rendering
the letsencrypt cron file, or invoking the ACME client. -/
def sslPathHead (p : String) : Bool := p.data.take 11 == "/shared/ssl".data

def certRelated : Effect → Bool
| Effect.mkdir p => sslPathHead p
| Effect.render tpl _ => tpl == "/templates/letsencrypt.cron.template"
| Effect.callCmd c => c.data.take 15 == sslShHead
| Effect.appendFile p _ => sslPathHead p
| Effect.move _ dst => sslPathHead dst
| _ => false

/-- Effects characteristic of the application initializer's state changes:
config-file patches, directory moves, version-stamp writes. -/
def initTouch : Effect → Bool
| Effect.updateStamp _ => true
| Effect.appendFile _ _ => true
| Effect.move _ _ => true
| _ => false

/-- The directory-move effects of a trace. -/
def isMoveE : Effect → Bool
| Effect.move _ _ => true
| _ => false

def movesOf (es : List Effect) : List Effect := es.filter isMoveE

/-- A concrete run context for evaluating the embedding: empty config,
expired certificates, both dependencies reachable on the first attempt. -/
def env0 : Env :=
  { conf := fun _ => none, certDaysLeft := fun _ => 0,
    nginxProbe := fun _ => true, mysqlProbe := fun _ => true,
    nginxBudget := 1, mysqlBudget := 1,
    seafileVersion := "6.0.7", envSeafileVersion := "6.0.7", uuidStr := "u" }

/-- A fresh world: nothing on disk, context `env0`. -/
def w0 : World := { fs := fun _ => false, env := env0 }

/-- A world whose persistent volume already holds the seafile-data marker
(and nothing else). -/
def wMarker : World := { fs := fun p => p == join shared_seafiledir "seafile-data", env := env0 }

/-- A fresh world with server.port_mappings configured. -/
def wPorts : World :=
  { fs := fun _ => false,
    env := { env0 with conf := fun k => if k == "server.port_mappings" then some "80:80,443:443" else none } }

/-- A world holding a certificate for the (unset, hence "None") domain with
60 days of validity left. -/
def wCert : World :=
  { fs := fun p => p == "/shared/ssl/None.crt",
    env := { env0 with certDaysLeft := fun _ => 60 } }

/-- A fresh world whose database probe never succeeds. -/
def wNoMysql : World :=
  { fs := fun _ => false, env := { env0 with mysqlProbe := fun _ => false } }

/-! ### Helper lemmas -/

lemma take_append_left (l1 l2 : List Char) (n : Nat) (h : n ≤ l1.length) :
    (l1 ++ l2).take n = l1.take n := by
  induction l1 generalizing n with
  | nil => simp only [List.length_nil, Nat.le_zero] at h; subst h; simp
  | cons a t ih =>
    cases n with
    | zero => simp
    | succ m =>
      simp only [List.cons_append, List.take_succ_cons, List.cons.injEq, true_and]
      exact ih m (Nat.le_of_succ_le_succ h)

lemma take_data_append (s t : String) (n : Nat) (h : n ≤ s.data.length) :
    (s ++ t).data.take n = s.data.take n := by
  rw [String.data_append]; exact take_append_left _ _ _ h

lemma env_applyEffect (w : World) (e : Effect) : (applyEffect w e).env = w.env := by
  cases e <;> rfl

lemma env_applyEffects (w : World) (es : List Effect) : (applyEffects w es).env = w.env := by
  induction es generalizing w with
  | nil => rfl
  | cons e rest ih =>
    show (applyEffects (applyEffect w e) rest).env = w.env
    rw [ih, env_applyEffect]

lemma get_conf_applyEffects (w : World) (es : List Effect) (k : String) :
    get_conf (applyEffects w es) k = get_conf w k := by
  simp [get_conf, env_applyEffects]

lemma is_https_applyEffects (w : World) (es : List Effect) :
    is_https (applyEffects w es) = is_https w := by
  simp [is_https, get_conf, env_applyEffects]

lemma setPath_ne (f : String → Bool) (p : String) (b : Bool) (q : String) (h : q ≠ p) :
    setPath f p b q = f q := by
  simp [setPath, h]

lemma wait_ready_false (probe : Nat → Bool) (h : ∀ n, probe n = false) :
    ∀ b, wait_ready probe b = false
| 0 => rfl
| n + 1 => by simp [wait_ready, h n, wait_ready_false probe h n]

lemma ne_of_take_ne (s t : String) (n : Nat) (h : s.data.take n ≠ t.data.take n) : s ≠ t := by
  intro he
  exact h (by rw [he])

lemma le_data_length_append (s t : String) (n : Nat) (h : n ≤ s.data.length) :
    n ≤ (s ++ t).data.length := by
  rw [String.data_append, List.length_append]
  omega

lemma take_data_append2 (s t u : String) (n : Nat) (h : n ≤ s.data.length) :
    ((s ++ t) ++ u).data.take n = s.data.take n := by
  rw [take_data_append _ _ n (le_data_length_append s t n h), take_data_append _ _ n h]

lemma take_data_append3 (s t u v : String) (n : Nat) (h : n ≤ s.data.length) :
    (((s ++ t) ++ u) ++ v).data.take n = s.data.take n := by
  rw [take_data_append _ _ n (le_data_length_append _ _ n (le_data_length_append _ _ n h)),
    take_data_append2 _ _ _ n h]

lemma ssl_crt_ne_cron (d : String) :
    ("/shared/ssl/" ++ d ++ ".crt") ≠ letsencrypt_cron_out := by
  apply ne_of_take_ne _ _ 2
  rw [take_data_append2 _ _ _ 2 (by decide)]
  decide

lemma ssl_crt_ne_ssl_dir (d : String) :
    ("/shared/ssl/" ++ d ++ ".crt") ≠ ssl_dir := by
  apply ne_of_take_ne _ _ 12
  rw [take_data_append2 _ _ _ 12 (by decide)]
  decide

lemma isSsl_log (m : String) : isSslShCall (Effect.log m) = false := rfl

lemma isSsl_mkdir (p : String) : isSslShCall (Effect.mkdir p) = false := rfl

lemma isSsl_render (t o : String) : isSslShCall (Effect.render t o) = false := rfl

lemma isSsl_sleep (n : Nat) : isSslShCall (Effect.sleep n) = false := rfl

lemma isSsl_waitNginx : isSslShCall Effect.waitNginx = false := rfl

lemma isSsl_reload : isSslShCall (Effect.callCmd "nginx -s reload") = false := by decide

lemma isSsl_sslsh (d : String) :
    isSslShCall (Effect.callCmd ("/scripts/ssl.sh " ++ ssl_dir ++ " " ++ d)) = true := by
  simp only [isSslShCall]
  rw [take_data_append3 _ _ _ _ 15 (by decide)]
  decide

lemma str_append_empty (s : String) : s ++ "" = s := by
  apply String.ext
  rw [String.data_append]
  simp

lemma take15_get_script (w : World) (s : String) :
    (get_script w s).data.take 15 = "/opt/seafile/se".data := by
  have h1 : (15 : Nat) ≤ ("/opt/seafile/seafile-server-" : String).data.length := by decide
  have h2 : (15 : Nat) ≤
      (("/opt/seafile/seafile-server-" : String) ++ w.env.seafileVersion).data.length :=
    le_data_length_append _ _ _ h1
  have h3 : (15 : Nat) ≤
      ((("/opt/seafile/seafile-server-" : String) ++ w.env.seafileVersion) ++ "/").data.length :=
    le_data_length_append _ _ _ h2
  have h4 : (15 : Nat) ≤
      (((("/opt/seafile/seafile-server-" : String) ++ w.env.seafileVersion) ++ "/") ++ "scripts").data.length :=
    le_data_length_append _ _ _ h3
  have h5 : (15 : Nat) ≤
      ((((("/opt/seafile/seafile-server-" : String) ++ w.env.seafileVersion) ++ "/") ++ "scripts") ++ "/").data.length :=
    le_data_length_append _ _ _ h4
  show ((((("/opt/seafile/seafile-server-" ++ w.env.seafileVersion) ++ "/") ++ "scripts") ++ "/") ++ s).data.take 15 = _
  rw [take_data_append _ _ 15 h5, take_data_append _ _ 15 h4, take_data_append _ _ 15 h3,
    take_data_append _ _ 15 h2, take_data_append _ _ 15 h1]
  decide

lemma le15_get_script (w : World) (s : String) : (15 : Nat) ≤ (get_script w s).data.length := by
  have h := take15_get_script w s
  have h2 : ((get_script w s).data.take 15).length = 15 := by rw [h]; decide
  rw [List.length_take] at h2
  omega

lemma certRelated_log (m : String) : certRelated (Effect.log m) = false := rfl

lemma certRelated_stamp (v : String) : certRelated (Effect.updateStamp v) = false := rfl

lemma certRelated_render_nginx (o : String) :
    certRelated (Effect.render "/templates/seafile.nginx.conf.template" o) = false := by
  simp only [certRelated]
  decide

lemma certRelated_append_settings (c : String) :
    certRelated (Effect.appendFile (join (join topdir "conf") "seahub_settings.py") c) = false := by
  simp only [certRelated]
  decide

lemma certRelated_append_ccnet (c : String) :
    certRelated (Effect.appendFile (join (join topdir "conf") "ccnet.conf") c) = false := by
  simp only [certRelated]
  decide

lemma certRelated_sed (w : World) : certRelated (Effect.callCmd (sed_cmd w)) = false := by
  simp only [certRelated, sed_cmd]
  rw [take_data_append _ _ 15 (by decide)]
  decide

lemma certRelated_setup (w : World) : certRelated (Effect.callCmd (setup_cmd w)) = false := by
  simp only [certRelated, setup_cmd]
  rw [take_data_append _ _ 15 (le15_get_script w _), take15_get_script]
  decide

lemma sslPathHead_shared (fn : String) : sslPathHead (join shared_seafiledir fn) = false := by
  simp only [sslPathHead, join, shared_seafiledir]
  rw [take_data_append2 _ _ _ 11 (by decide)]
  decide

lemma certRelated_moveLoop (names : List String) :
    ∀ (fs : String → Bool), ∀ e ∈ (moveLoop fs names).1, certRelated e = false := by
  induction names with
  | nil => intro fs e he; simp [moveLoop] at he
  | cons fn rest ih =>
    intro fs e he
    simp only [moveLoop] at he
    split at he
    · rcases List.mem_cons.mp he with rfl | hm
      · simp only [certRelated]
        exact sslPathHead_shared fn
      · exact ih _ e hm
    · exact ih _ e he

lemma certRelated_init_seafile (w : World) :
    ∀ e ∈ (init_seafile_server w).effects, certRelated e = false := by
  intro e he
  by_cases h : w.fs (join shared_seafiledir "seafile-data")
  · simp only [init_seafile_server, h, if_true] at he
    rcases List.mem_append.mp he with h1 | h1
    · split at h1
      · simp at h1
      · simp at h1
        subst h1
        rfl
    · simp at h1
      subst h1
      rfl
  · simp only [init_seafile_server, h, Bool.false_eq_true, if_false] at he
    rcases List.mem_append.mp he with h1 | h1
    · rcases List.mem_append.mp h1 with h2 | h2
      · rcases List.mem_append.mp h2 with h3 | h3
        · rcases List.mem_append.mp h3 with h4 | h4
          · simp at h4
            rcases h4 with rfl | rfl | rfl
            · rfl
            · exact certRelated_sed w
            · exact certRelated_setup w
          · simp at h4
            subst h4
            exact certRelated_append_settings _
        · simp at h3
          subst h3
          exact certRelated_append_ccnet _
      · exact certRelated_moveLoop files_to_copy _ e h2
    · simp at h1
      rcases h1 with rfl | rfl
      · rfl
      · rfl

lemma init_letsencrypt_fail (w : World)
    (h : wait_ready w.env.nginxProbe w.env.nginxBudget = false) :
    init_letsencrypt w =
      ⟨[Effect.log "Preparing for letsencrypt ...", Effect.waitNginx], w, some 1⟩ := by
  simp [init_letsencrypt, h]

lemma initTouch_letsencrypt (w : World) :
    ∀ e ∈ (init_letsencrypt w).effects, initTouch e = false := by
  have hcr' : ∀ (f : String → Bool) (b : Bool),
      setPath f letsencrypt_cron_out b ("/shared/ssl/" ++ pyStr (get_conf w "server.hostname") ++ ".crt") =
        f ("/shared/ssl/" ++ pyStr (get_conf w "server.hostname") ++ ".crt") :=
    fun f b => setPath_ne f _ b _ (ssl_crt_ne_cron (pyStr (get_conf w "server.hostname")))
  have hcd' : ∀ (f : String → Bool) (b : Bool),
      setPath f ssl_dir b ("/shared/ssl/" ++ pyStr (get_conf w "server.hostname") ++ ".crt") =
        f ("/shared/ssl/" ++ pyStr (get_conf w "server.hostname") ++ ".crt") :=
    fun f b => setPath_ne f _ b _ (ssl_crt_ne_ssl_dir (pyStr (get_conf w "server.hostname")))
  by_cases hn : wait_ready w.env.nginxProbe w.env.nginxBudget
  · by_cases h1 : w.fs ssl_dir <;>
    by_cases h2 : w.fs ("/shared/ssl/" ++ pyStr (get_conf w "server.hostname") ++ ".crt") <;>
    by_cases h3 : 30 < w.env.certDaysLeft ("/shared/ssl/" ++ pyStr (get_conf w "server.hostname") ++ ".crt") <;>
    simp_all [init_letsencrypt, applyEffects, applyEffect, get_conf, cert_has_valid_days, initTouch]
    all_goals rw [if_neg (by omega)]
    all_goals simp [initTouch]
  · intro e he
    rw [init_letsencrypt_fail w (by simp [hn])] at he
    simp at he
    rcases he with rfl | rfl <;> rfl

lemma certRelated_mkdir_shared : certRelated (Effect.mkdir shared_seafiledir) = false := by decide

lemma certRelated_mkdir_generated : certRelated (Effect.mkdir generated_dir) = false := by decide

lemma certRelated_render_dockerfile :
    certRelated (Effect.render "/templates/Dockerfile.template" (join generated_dir "Dockerfile")) = false := by
  decide

lemma certRelated_waitM : certRelated Effect.waitMysql = false := rfl

lemma forall_mem_ite {α : Type} (c : Prop) [Decidable c] (l1 l2 : List α) (q : α → Bool)
    (h1 : ∀ e ∈ l1, q e = false) (h2 : ∀ e ∈ l2, q e = false) :
    ∀ e ∈ (if c then l1 else l2), q e = false := by
  split
  · exact h1
  · exact h2

lemma init_seafile_exit (w : World) : (init_seafile_server w).exit = none := by
  unfold init_seafile_server
  split <;> simp

lemma init_letsencrypt_exit_ok (w : World)
    (hn : wait_ready w.env.nginxProbe w.env.nginxBudget = true) :
    (init_letsencrypt w).exit = none := by
  simp [init_letsencrypt, hn, apply_ite Out.exit]

lemma init_letsencrypt_world_env (w : World) : (init_letsencrypt w).world.env = w.env := by
  unfold init_letsencrypt
  split
  · rfl
  · simp [apply_ite Out.world, apply_ite World.env, env_applyEffects, ite_self]

lemma main_no_init_of_nginx_fail (w : World) (hh : is_https w = true)
    (hn' : wait_ready w.env.nginxProbe w.env.nginxBudget = false) :
    (main w false).exit = some 1 ∧ ∀ e ∈ (main w false).effects, initTouch e = false := by
  refine ⟨?_, ?_⟩
  · simp [main, is_https_applyEffects, hh, env_applyEffects, init_letsencrypt, hn']
  · simp only [main, Bool.false_eq_true, if_false, is_https_applyEffects, hh, if_true,
      eq_self_iff_true, env_applyEffects, init_letsencrypt, hn', Bool.not_false,
      List.append_nil, List.forall_mem_append]
    repeat' apply And.intro
    all_goals first
      | exact forall_mem_ite _ _ _ _ (by simp) (by simp [initTouch])
      | simp [generate_local_dockerfile, generate_local_nginx_conf, initTouch]

lemma main_no_init_of_wait_fail (w : World)
    (hwr : wait_ready w.env.mysqlProbe w.env.mysqlBudget = false) :
    (main w false).exit = some 1 ∧ ∀ e ∈ (main w false).effects, initTouch e = false := by
  by_cases hh : is_https w
  case neg =>
    have h' : is_https w = false := by simpa using hh
    refine ⟨?_, ?_⟩
    · simp [main, is_https_applyEffects, h', env_applyEffects, hwr]
    · simp only [main, Bool.false_eq_true, if_false, is_https_applyEffects, h', env_applyEffects,
        hwr, Bool.not_false, eq_self_iff_true, if_true, List.append_nil, List.forall_mem_append]
      repeat' apply And.intro
      all_goals first
        | exact forall_mem_ite _ _ _ _ (by simp) (by simp [initTouch])
        | simp [generate_local_dockerfile, generate_local_nginx_conf, initTouch]
  case pos =>
    by_cases hn : wait_ready w.env.nginxProbe w.env.nginxBudget
    · refine ⟨?_, ?_⟩
      · simp [main, is_https_applyEffects, hh, env_applyEffects, hwr,
          init_letsencrypt_exit_ok, hn, init_letsencrypt_world_env]
      · simp only [main, Bool.false_eq_true, if_false, is_https_applyEffects, hh, if_true,
          eq_self_iff_true, env_applyEffects, hwr, Bool.not_false, List.append_nil,
          List.forall_mem_append, init_letsencrypt_exit_ok, hn, init_letsencrypt_world_env]
        repeat' apply And.intro
        all_goals first
          | exact initTouch_letsencrypt _
          | exact forall_mem_ite _ _ _ _ (by simp) (by simp [initTouch])
          | simp [generate_local_dockerfile, generate_local_nginx_conf, initTouch]
    · exact main_no_init_of_nginx_fail w hh (by simpa using hn)

/-! ### Claim theorems -/

/-- C10: the https/letsencrypt decision is case-insensitive (the config value
is lowercased before comparing with "true") and an absent key disables
https. -/
theorem c10_is_https_decision (w : World) :
    (is_https w = true ↔ pyLower ((w.env.conf "server.letsencrypt").getD "") = "true") ∧
    (w.env.conf "server.letsencrypt" = none → is_https w = false) := by
  constructor
  · simp [is_https, get_conf]
  · intro h
    simp [is_https, get_conf, h, pyLower]

theorem c10_is_https_decision_witness : is_https w0 = false :=
  (c10_is_https_decision w0).2 rfl

/-- C5: with server.port_mappings absent, empty, or whitespace-only (empty
after stripping), a --parse-ports run writes the empty string to standard
output. -/
theorem c5_parse_ports_empty (w : World)
    (h : pyStrip ((get_conf w "server.port_mappings").getD "") = "") :
    stdoutOf (main w true).effects = "" := by
  simp [main, do_parse_ports, h, stdoutOf]

theorem c5_parse_ports_empty_witness : stdoutOf (main w0 true).effects = "" :=
  c5_parse_ports_empty w0 (by decide)

/-- C4: with server.port_mappings = 80:80,443:443, a --parse-ports run writes
exactly "-p 80:80 -p 443:443" to standard output, leaves the world unchanged
(no filesystem writes, no directories created), and returns. -/
theorem c4_parse_ports_mapped (w : World)
    (h : get_conf w "server.port_mappings" = some "80:80,443:443") :
    (main w true).effects = [Effect.stdout "-p 80:80 -p 443:443"] ∧
    (main w true).world = w ∧ (main w true).exit = none := by
  have hd : do_parse_ports w = [Effect.stdout "-p 80:80 -p 443:443"] := by
    unfold do_parse_ports
    rw [h]
    decide
  refine ⟨?_, ?_, ?_⟩ <;> simp [main, hd, applyEffects, applyEffect]

theorem c4_parse_ports_mapped_witness :
    (main wPorts true).effects = [Effect.stdout "-p 80:80 -p 443:443"] ∧
    (main wPorts true).world = wPorts ∧ (main wPorts true).exit = none :=
  c4_parse_ports_mapped wPorts (by decide)

/-- C1: when the persistent volume already holds the seafile-data marker,
init_seafile_server performs no setup call, no config patching, and no moves:
its whole trace is the version-stamp backfill (only when the stamp is
missing) followed by the skip log line; it does not exit, and no path other
than the version stamp changes. -/
theorem c1_initializer_idempotent (w : World)
    (h : w.fs (join shared_seafiledir "seafile-data") = true) :
    (init_seafile_server w).effects =
      (if w.fs version_stamp_file then [] else [Effect.updateStamp w.env.envSeafileVersion]) ++
        [Effect.log "Skip running setup-seafile-mysql.py because there is existing seafile-data folder."] ∧
    (init_seafile_server w).exit = none ∧
    ∀ p, p ≠ version_stamp_file → (init_seafile_server w).world.fs p = w.fs p := by
  unfold init_seafile_server
  rw [h]
  by_cases hs : w.fs version_stamp_file
  · refine ⟨by simp [hs], by simp, ?_⟩
    intro p _
    simp [hs, applyEffects]
  · refine ⟨by simp [hs], by simp, ?_⟩
    intro p hp
    simp [hs, applyEffects, applyEffect, setPath_ne _ _ _ _ hp]

/-- C2: when the TLS bootstrapper runs (the nginx readiness wait succeeds),
the ACME client ssl.sh is never invoked if the certificate file for the
configured domain exists with more than 30 days of validity remaining, and is
invoked exactly once if the file is absent or has 30 or fewer days left. -/
theorem c2_acme_rate_limit_guard (w : World)
    (hn : wait_ready w.env.nginxProbe w.env.nginxBudget = true) :
    ((w.fs ("/shared/ssl/" ++ pyStr (get_conf w "server.hostname") ++ ".crt") = true ∧
        30 < w.env.certDaysLeft ("/shared/ssl/" ++ pyStr (get_conf w "server.hostname") ++ ".crt")) →
      List.countP isSslShCall (init_letsencrypt w).effects = 0) ∧
    ((w.fs ("/shared/ssl/" ++ pyStr (get_conf w "server.hostname") ++ ".crt") = false ∨
        w.env.certDaysLeft ("/shared/ssl/" ++ pyStr (get_conf w "server.hostname") ++ ".crt") ≤ 30) →
      List.countP isSslShCall (init_letsencrypt w).effects = 1) := by
  have hcr' : ∀ (f : String → Bool) (b : Bool),
      setPath f letsencrypt_cron_out b ("/shared/ssl/" ++ pyStr (get_conf w "server.hostname") ++ ".crt") =
        f ("/shared/ssl/" ++ pyStr (get_conf w "server.hostname") ++ ".crt") :=
    fun f b => setPath_ne f _ b _ (ssl_crt_ne_cron (pyStr (get_conf w "server.hostname")))
  have hcd' : ∀ (f : String → Bool) (b : Bool),
      setPath f ssl_dir b ("/shared/ssl/" ++ pyStr (get_conf w "server.hostname") ++ ".crt") =
        f ("/shared/ssl/" ++ pyStr (get_conf w "server.hostname") ++ ".crt") :=
    fun f b => setPath_ne f _ b _ (ssl_crt_ne_ssl_dir (pyStr (get_conf w "server.hostname")))
  simp only [init_letsencrypt, hn, Bool.not_true, if_false, Bool.false_eq_true]
  by_cases h1 : w.fs ssl_dir <;>
    by_cases h2 : w.fs ("/shared/ssl/" ++ pyStr (get_conf w "server.hostname") ++ ".crt") <;>
    by_cases h3 : 30 < w.env.certDaysLeft ("/shared/ssl/" ++ pyStr (get_conf w "server.hostname") ++ ".crt") <;>
    simp_all [applyEffects, applyEffect, get_conf, cert_has_valid_days,
      List.countP_cons, List.countP_append,
      isSsl_log, isSsl_mkdir, isSsl_render, isSsl_sleep, isSsl_waitNginx,
      isSsl_reload, isSsl_sslsh]
  all_goals rw [if_neg (by omega)]
  all_goals simp [List.countP_cons, List.countP_nil, isSsl_log, isSsl_mkdir,
    isSsl_render, isSsl_sleep, isSsl_waitNginx, isSsl_reload, isSsl_sslsh]

theorem c2_acme_rate_limit_guard_witness :
    List.countP isSslShCall (init_letsencrypt wCert).effects = 0 :=
  (c2_acme_rate_limit_guard wCert (by decide)).1 ⟨by decide, by decide⟩

/-- C6: whenever the TLS bootstrapper runs (the nginx readiness wait
succeeds), the letsencrypt renewal cron file is rendered, and it is rendered
before any ACME client invocation — hence regardless of the skip-reissuance
decision. -/
theorem c6_cron_rendered_unconditionally (w : World)
    (hn : wait_ready w.env.nginxProbe w.env.nginxBudget = true) :
    Effect.render "/templates/letsencrypt.cron.template" letsencrypt_cron_out ∈
      (init_letsencrypt w).effects.takeWhile (fun e => !isSslShCall e) := by
  simp only [init_letsencrypt, hn, Bool.not_true, if_false, Bool.false_eq_true]
  by_cases h1 : w.fs ssl_dir <;>
    by_cases h2 :
      (applyEffects (applyEffects w (if w.fs ssl_dir then [] else [Effect.mkdir ssl_dir]))
          [Effect.render "/templates/letsencrypt.cron.template" letsencrypt_cron_out]).fs
        ("/shared/ssl/" ++ pyStr (get_conf (applyEffects w (if w.fs ssl_dir then [] else [Effect.mkdir ssl_dir])) "server.hostname") ++ ".crt") <;>
    simp_all [applyEffects, applyEffect, get_conf, cert_has_valid_days, List.takeWhile,
      isSsl_log, isSsl_mkdir, isSsl_render, isSsl_sleep, isSsl_waitNginx,
      isSsl_reload, isSsl_sslsh] <;>
    split <;>
    simp_all [List.takeWhile, isSsl_log, isSsl_mkdir, isSsl_render, isSsl_sleep,
      isSsl_waitNginx, isSsl_reload, isSsl_sslsh]

theorem c6_cron_rendered_unconditionally_witness :
    Effect.render "/templates/letsencrypt.cron.template" letsencrypt_cron_out ∈
      (init_letsencrypt w0).effects.takeWhile (fun e => !isSslShCall e) :=
  c6_cron_rendered_unconditionally w0 (by decide)

set_option maxHeartbeats 4000000 in
/-- C7: on the first-run path, the initializer's directory moves are exactly
those names among conf, ccnet, seafile-data, seahub-data (in that order)
whose destination under the persistent mount does not exist while the source
under the working tree does; a pre-existing destination is still present
afterwards. -/
theorem c7_relocation (w : World)
    (h : w.fs (join shared_seafiledir "seafile-data") = false) :
    movesOf (init_seafile_server w).effects =
      (files_to_copy.filter
          (fun fn => !(w.fs (join shared_seafiledir fn)) && w.fs (join topdir fn))).map
        (fun fn => Effect.move (join topdir fn) (join shared_seafiledir fn)) ∧
    ∀ fn ∈ files_to_copy, w.fs (join shared_seafiledir fn) = true →
      (init_seafile_server w).world.fs (join shared_seafiledir fn) = true := by
  by_cases h1 : w.fs (join shared_seafiledir "conf") <;>
  by_cases h2 : w.fs (join topdir "conf") <;>
  by_cases h3 : w.fs (join shared_seafiledir "ccnet") <;>
  by_cases h4 : w.fs (join topdir "ccnet") <;>
  by_cases h6 : w.fs (join topdir "seafile-data") <;>
  by_cases h7 : w.fs (join shared_seafiledir "seahub-data") <;>
  by_cases h8 : w.fs (join topdir "seahub-data") <;>
  simp_all [init_seafile_server, moveLoop, movesOf, isMoveE, files_to_copy, setPath, join,
    topdir, shared_seafiledir, version_stamp_file, applyEffects, applyEffect]

theorem c7_relocation_witness :
    movesOf (init_seafile_server w0).effects =
      (files_to_copy.filter
          (fun fn => !(w0.fs (join shared_seafiledir fn)) && w0.fs (join topdir fn))).map
        (fun fn => Effect.move (join topdir fn) (join shared_seafiledir fn)) ∧
    ∀ fn ∈ files_to_copy, w0.fs (join shared_seafiledir fn) = true →
      (init_seafile_server w0).world.fs (join shared_seafiledir fn) = true :=
  c7_relocation w0 rfl

/-- C9: in the FILE_SERVER_ROOT line appended to seahub_settings.py on first
run, the service port is omitted exactly when server.service_port is unset,
empty, or "80"; any other value is concatenated directly after the domain
with no colon separator. -/
theorem c9_file_server_root (w : World)
    (h : w.fs (join shared_seafiledir "seafile-data") = false) :
    Effect.appendFile (join (join topdir "conf") "seahub_settings.py") (file_server_root_text w) ∈
      (init_seafile_server w).effects ∧
    ((get_conf w "server.service_port" = none ∨ get_conf w "server.service_port" = some "" ∨
        get_conf w "server.service_port" = some "80") →
      file_server_root_text w =
        "\n" ++ "FILE_SERVER_ROOT = \"" ++ (if is_https w then "https" else "http") ++ "://" ++
          pyStr (get_conf w "server.hostname") ++ "/seafhttp\"" ++ "\n") ∧
    (∀ s, get_conf w "server.service_port" = some s → s ≠ "" → s ≠ "80" →
      file_server_root_text w =
        "\n" ++ "FILE_SERVER_ROOT = \"" ++ (if is_https w then "https" else "http") ++ "://" ++
          pyStr (get_conf w "server.hostname") ++ s ++ "/seafhttp\"" ++ "\n") := by
  refine ⟨?_, ?_, ?_⟩
  · simp [init_seafile_server, h, applyEffects, applyEffect]
  · intro hc
    rcases hc with hc | hc | hc <;>
      simp [file_server_root_text, service_port_str, pyTruthy, pyStr, hc, str_append_empty]
  · intro s hs hne h80
    simp [file_server_root_text, service_port_str, pyTruthy, pyStr, hs, hne, h80]

theorem c9_file_server_root_witness :
    Effect.appendFile (join (join topdir "conf") "seahub_settings.py") (file_server_root_text w0) ∈
      (init_seafile_server w0).effects ∧
    ((get_conf w0 "server.service_port" = none ∨ get_conf w0 "server.service_port" = some "" ∨
        get_conf w0 "server.service_port" = some "80") →
      file_server_root_text w0 =
        "\n" ++ "FILE_SERVER_ROOT = \"" ++ (if is_https w0 then "https" else "http") ++ "://" ++
          pyStr (get_conf w0 "server.hostname") ++ "/seafhttp\"" ++ "\n") ∧
    (∀ s, get_conf w0 "server.service_port" = some s → s ≠ "" → s ≠ "80" →
      file_server_root_text w0 =
        "\n" ++ "FILE_SERVER_ROOT = \"" ++ (if is_https w0 then "https" else "http") ++ "://" ++
          pyStr (get_conf w0 "server.hostname") ++ s ++ "/seafhttp\"" ++ "\n") :=
  c9_file_server_root w0 rfl

/-- C3: when server.letsencrypt does not evaluate to true, a default
(flag-absent) run produces no certificate-related effect: no path under
/shared/ssl is created, the letsencrypt cron template is never rendered, and
the ACME client is never invoked. -/
theorem c3_tls_never_invoked (w : World) (h : is_https w = false) :
    ∀ e ∈ (main w false).effects, certRelated e = false := by
  by_cases hmw : wait_ready w.env.mysqlProbe w.env.mysqlBudget
  case pos =>
    simp only [main, Bool.false_eq_true, if_false, is_https_applyEffects, h, env_applyEffects,
      hmw, Bool.not_true, List.append_nil, List.forall_mem_append]
    repeat' apply And.intro
    all_goals first
      | exact certRelated_init_seafile _
      | exact forall_mem_ite _ _ _ _ (by simp)
          (by simp [certRelated_mkdir_shared, certRelated_mkdir_generated])
      | simp [generate_local_dockerfile, generate_local_nginx_conf, certRelated_render_dockerfile,
          certRelated_render_nginx, certRelated_log, certRelated_waitM]
  case neg =>
    have hmw' : wait_ready w.env.mysqlProbe w.env.mysqlBudget = false := by
      simpa using hmw
    simp only [main, Bool.false_eq_true, if_false, is_https_applyEffects, h, env_applyEffects,
      hmw', Bool.not_false, eq_self_iff_true, if_true, List.append_nil, List.forall_mem_append]
    repeat' apply And.intro
    all_goals first
      | exact forall_mem_ite _ _ _ _ (by simp)
          (by simp [certRelated_mkdir_shared, certRelated_mkdir_generated])
      | simp [generate_local_dockerfile, generate_local_nginx_conf, certRelated_render_dockerfile,
          certRelated_render_nginx, certRelated_log, certRelated_waitM]

theorem c3_tls_never_invoked_witness :
    ((main w0 false).effects.all (fun e => !certRelated e)) = true := by
  have h := c3_tls_never_invoked w0 (by decide)
  simp only [List.all_eq_true]
  intro e he
  simp [h e he]

/-- C8: if the database readiness waiter exhausts its budget against an
unreachable port, the process exits non-zero (code 1) and the application
initializer never runs (no config patch, move, or stamp write appears in the
trace); likewise when the reverse-proxy waiter fails on the https path.
Moreover any initializer state change implies the database wait succeeded,
i.e. the wait completes before init_seafile_server is entered. -/
theorem c8_readiness_fatal (w : World) :
    ((∀ n, w.env.mysqlProbe n = false) →
      (main w false).exit = some 1 ∧ ∀ e ∈ (main w false).effects, initTouch e = false) ∧
    (is_https w = true → (∀ n, w.env.nginxProbe n = false) →
      (main w false).exit = some 1 ∧ ∀ e ∈ (main w false).effects, initTouch e = false) ∧
    (∀ e ∈ (main w false).effects, initTouch e = true →
      wait_ready w.env.mysqlProbe w.env.mysqlBudget = true) := by
  refine ⟨fun hm => main_no_init_of_wait_fail w (wait_ready_false _ hm _),
    fun hh hn => main_no_init_of_nginx_fail w hh (wait_ready_false _ hn _), ?_⟩
  by_cases hmw : wait_ready w.env.mysqlProbe w.env.mysqlBudget
  · exact fun e _ _ => hmw
  · intro e he hT
    have h2 := (main_no_init_of_wait_fail w (by simpa using hmw)).2 e he
    rw [hT] at h2
    exact absurd h2 (by simp)

theorem c8_readiness_fatal_witness :
    (main wNoMysql false).exit = some 1 ∧
      ∀ e ∈ (main wNoMysql false).effects, initTouch e = false :=
  (c8_readiness_fatal wNoMysql).1 (fun _ => rfl)

theorem c1_initializer_idempotent_witness :
    (init_seafile_server wMarker).effects =
      (if wMarker.fs version_stamp_file then [] else [Effect.updateStamp wMarker.env.envSeafileVersion]) ++
        [Effect.log "Skip running setup-seafile-mysql.py because there is existing seafile-data folder."] ∧
    (init_seafile_server wMarker).exit = none ∧
    ∀ p, p ≠ version_stamp_file → (init_seafile_server wMarker).world.fs p = wMarker.fs p :=
  c1_initializer_idempotent wMarker (by decide)

end Bootstrap
